import Mathlib

/-!
Verification of `src/java.base/share/native/libjava/java_props.h`.

The header declares the `java_props_t` platform-property record and the
helper `normalize_encoding`, which maps a fixed set of legacy encoding
aliases to their canonical IANA names.  The embedding below translates:

* the five `#define` string constants (`UTF_8`, `ISO_8859_1`, `US_ASCII`,
  `ISO_8859_15`, `WINDOWS_1251`);
* `normalize_encoding` as a pure function on `String` (the C body is a
  chain of `strcmp` tests with no writes, so the pure translation is
  exact);
* the field list of `java_props_t` as a list of (field name, declared C
  type) pairs, parameterised by the two build flags that change its shape
  (`JDK_ARCH_ABI_PROP_NAME` and `MACOSX`), together with the `nchar`
  typedef (`WCHAR` on `WIN32`, otherwise `char`) reflected as a byte
  width.
-/

namespace JavaProps

/-- From the header: `#define UTF_8 "UTF-8"`. -/
def UTF_8 : String := "UTF-8"

/-- From the header: `#define ISO_8859_1 "ISO-8859-1"`. -/
def ISO_8859_1 : String := "ISO-8859-1"

/-- From the header: `#define US_ASCII "US-ASCII"`. -/
def US_ASCII : String := "US-ASCII"

/-- From the header: `#define ISO_8859_15 "ISO-8859-15"`. -/
def ISO_8859_15 : String := "ISO-8859-15"

/-- From the header: `#define WINDOWS_1251 "windows-1251"`. -/
def WINDOWS_1251 : String := "windows-1251"

/-- Translation of `normalize_encoding` from the header.  Each `strcmp
(encoding, lit) == 0` test becomes a decidable string equality; the
final `return encoding` is the trailing else branch. -/
def normalize_encoding (encoding : String) : String :=
  if encoding = "ISO8859-1" then
    ISO_8859_1
  else if encoding = "ISO8859-15" then
    ISO_8859_15
  else if encoding = "ANSI_X3.4-1968" ∨ encoding = "ISO646-US" then
    US_ASCII
  else
    encoding

/-- The declared C type of a `java_props_t` field, as written in the
struct declaration: `char *`, `const char *`, `nchar *`, or `int`. -/
inductive CType where
  | charPtr : CType
  | constCharPtr : CType
  | ncharPtr : CType
  | intType : CType
  deriving DecidableEq

/-- Byte width of the `nchar` typedef: under `WIN32` it is `WCHAR`
(2 bytes), otherwise plain `char` (1 byte). -/
def nchar_width (win32 : Bool) : Nat :=
  if win32 then 2 else 1

/-- Byte width of the character type a field of the given declared type
points to (`intType` carries no text; we give it width 1 as a dummy,
it is never used for a text claim). -/
def ctype_width (win32 : Bool) : CType → Nat
  | CType.ncharPtr => nchar_width win32
  | _ => 1

/-- The fields of `java_props_t`, in declaration order, each with its
declared C type.  `abi` models the `JDK_ARCH_ABI_PROP_NAME` guard and
`macosx` the `MACOSX` guard; a field inside a guarded block is present
exactly when its flag is set. -/
def java_props_t_fields (abi macosx : Bool) : List (String × CType) :=
  [("os_name", CType.charPtr),
   ("os_version", CType.charPtr),
   ("os_arch", CType.charPtr)]
  ++ (if abi then [("sun_arch_abi", CType.charPtr)] else [])
  ++ [("tmp_dir", CType.ncharPtr),
      ("user_dir", CType.ncharPtr),
      ("file_separator", CType.charPtr),
      ("path_separator", CType.charPtr),
      ("line_separator", CType.charPtr),
      ("user_name", CType.ncharPtr),
      ("user_home", CType.ncharPtr),
      ("format_language", CType.charPtr),
      ("display_language", CType.charPtr),
      ("format_script", CType.charPtr),
      ("display_script", CType.charPtr),
      ("format_country", CType.charPtr),
      ("display_country", CType.charPtr),
      ("format_variant", CType.charPtr),
      ("display_variant", CType.charPtr),
      ("encoding", CType.charPtr),
      ("sun_jnu_encoding", CType.charPtr),
      ("sun_stdout_encoding", CType.charPtr),
      ("sun_stderr_encoding", CType.charPtr),
      ("unicode_encoding", CType.charPtr),
      ("cpu_isalist", CType.constCharPtr),
      ("cpu_endian", CType.charPtr),
      ("data_model", CType.charPtr),
      ("patch_level", CType.charPtr)]
  ++ (if macosx then
      [("httpProxyEnabled", CType.intType),
       ("httpHost", CType.charPtr),
       ("httpPort", CType.charPtr),
       ("httpsProxyEnabled", CType.intType),
       ("httpsHost", CType.charPtr),
       ("httpsPort", CType.charPtr),
       ("ftpProxyEnabled", CType.intType),
       ("ftpHost", CType.charPtr),
       ("ftpPort", CType.charPtr),
       ("socksProxyEnabled", CType.intType),
       ("socksHost", CType.charPtr),
       ("socksPort", CType.charPtr),
       ("exceptionList", CType.charPtr)]
      else [])

/-- The declared type of the named field of `java_props_t`, if the field
is present under the given build flags. -/
def field_ctype (abi macosx : Bool) (name : String) : Option CType :=
  (java_props_t_fields abi macosx).lookup name

/-- The thirteen fields of the `MACOSX`-guarded proxy block, with their
declared types, in declaration order. -/
def proxy_fields : List (String × CType) :=
  [("httpProxyEnabled", CType.intType),
   ("httpHost", CType.charPtr),
   ("httpPort", CType.charPtr),
   ("httpsProxyEnabled", CType.intType),
   ("httpsHost", CType.charPtr),
   ("httpsPort", CType.charPtr),
   ("ftpProxyEnabled", CType.intType),
   ("ftpHost", CType.charPtr),
   ("ftpPort", CType.charPtr),
   ("socksProxyEnabled", CType.intType),
   ("socksHost", CType.charPtr),
   ("socksPort", CType.charPtr),
   ("exceptionList", CType.charPtr)]

/-- The four alias strings tested by `normalize_encoding`. -/
def alias_table : List String :=
  ["ISO8859-1", "ISO8859-15", "ANSI_X3.4-1968", "ISO646-US"]

lemma normalize_eq_of_not_alias (s : String)
    (h1 : s ≠ "ISO8859-1") (h2 : s ≠ "ISO8859-15")
    (h3 : s ≠ "ANSI_X3.4-1968") (h4 : s ≠ "ISO646-US") :
    normalize_encoding s = s := by
  unfold normalize_encoding
  rw [if_neg h1, if_neg h2, if_neg (not_or.mpr ⟨h3, h4⟩)]

lemma normalize_cases (s : String) :
    normalize_encoding s = s ∨ normalize_encoding s = ISO_8859_1 ∨
      normalize_encoding s = ISO_8859_15 ∨ normalize_encoding s = US_ASCII := by
  unfold normalize_encoding
  split_ifs <;> simp

/-- Claim C1: each of the four legacy aliases is mapped to exactly the
specified canonical IANA name. -/
theorem normalize_encoding_alias_values :
    normalize_encoding "ISO8859-1" = "ISO-8859-1" ∧
    normalize_encoding "ISO8859-15" = "ISO-8859-15" ∧
    normalize_encoding "ANSI_X3.4-1968" = "US-ASCII" ∧
    normalize_encoding "ISO646-US" = "US-ASCII" := by
  refine ⟨?_, ?_, ?_, ?_⟩ <;> decide

/-- Claim C2: any input that is not one of the four alias strings is
returned unchanged; matching is exact and case-sensitive. -/
theorem normalize_encoding_identity_of_not_alias (s : String)
    (h : s ∉ alias_table) :
    normalize_encoding s = s := by
  simp only [alias_table, List.mem_cons, List.not_mem_nil, or_false, not_or] at h
  obtain ⟨h1, h2, h3, h4⟩ := h
  exact normalize_eq_of_not_alias s h1 h2 h3 h4

/-- Witness for C2 at the concrete non-alias inputs named by the claim:
the empty string, the lower-case variant and an already-canonical name. -/
theorem normalize_encoding_identity_witness :
    normalize_encoding "" = "" ∧
    normalize_encoding "iso8859-1" = "iso8859-1" ∧
    normalize_encoding "UTF-8" = "UTF-8" :=
  ⟨normalize_encoding_identity_of_not_alias "" (by decide),
   normalize_encoding_identity_of_not_alias "iso8859-1" (by decide),
   normalize_encoding_identity_of_not_alias "UTF-8" (by decide)⟩

/-- Claim C3: `normalize_encoding` is idempotent; the canonical outputs
are themselves not aliases, so a second application changes nothing. -/
theorem normalize_encoding_idempotent (s : String) :
    normalize_encoding (normalize_encoding s) = normalize_encoding s := by
  by_cases h1 : s = "ISO8859-1"
  · subst h1; decide
  by_cases h2 : s = "ISO8859-15"
  · subst h2; decide
  by_cases h3 : s = "ANSI_X3.4-1968"
  · subst h3; decide
  by_cases h4 : s = "ISO646-US"
  · subst h4; decide
  have h := normalize_eq_of_not_alias s h1 h2 h3 h4
  rw [h, h]

/-- Claim C4: `normalize_encoding` is total with no error branch: every
input reaches one of the four `return` statements, so a result exists
for every string. -/
theorem normalize_encoding_total (s : String) :
    ∃ r, normalize_encoding s = r ∧
      (r = ISO_8859_1 ∨ r = ISO_8859_15 ∨ r = US_ASCII ∨ r = s) := by
  rcases normalize_cases s with h | h | h | h
  · exact ⟨normalize_encoding s, rfl, Or.inr (Or.inr (Or.inr h))⟩
  · exact ⟨normalize_encoding s, rfl, Or.inl h⟩
  · exact ⟨normalize_encoding s, rfl, Or.inr (Or.inl h)⟩
  · exact ⟨normalize_encoding s, rfl, Or.inr (Or.inr (Or.inl h))⟩

/-- Claim C5: `normalize_encoding` is deterministic: two calls on equal
input strings return equal results.  (Absence of side effects is
structural: the C body contains no assignment, so its translation is a
pure function.) -/
theorem normalize_encoding_deterministic (s t : String) (h : s = t) :
    normalize_encoding s = normalize_encoding t := by
  rw [h]

/-- Witness for C5 at a concrete pair of equal inputs. -/
theorem normalize_encoding_deterministic_witness :
    normalize_encoding "UTF-8" = normalize_encoding "UTF-8" :=
  normalize_encoding_deterministic "UTF-8" "UTF-8" rfl

/-- Claim C10: the result of `normalize_encoding` is either the input
itself or one of the three canonical constants, and `windows-1251` is
never produced from a distinct input. -/
theorem normalize_encoding_range (s : String) :
    (normalize_encoding s = s ∨ normalize_encoding s = ISO_8859_1 ∨
      normalize_encoding s = ISO_8859_15 ∨ normalize_encoding s = US_ASCII) ∧
    (s ≠ WINDOWS_1251 → normalize_encoding s ≠ WINDOWS_1251) := by
  refine ⟨normalize_cases s, fun hs hr => ?_⟩
  rcases normalize_cases s with h | h | h | h
  · exact hs (h ▸ hr)
  · exact absurd (h ▸ hr) (by decide)
  · exact absurd (h ▸ hr) (by decide)
  · exact absurd (h ▸ hr) (by decide)

/-- Witness for C10: applied at a concrete non-alias input distinct from
`windows-1251`. -/
theorem normalize_encoding_range_witness :
    normalize_encoding "KOI8-R" ≠ WINDOWS_1251 :=
  (normalize_encoding_range "KOI8-R").2 (by decide)

/-- Counterexample to C6: the three separator fields are declared
`char *`, not `nchar *`, so they are not stored in the native text
representation — under `WIN32` their character width is 1 byte while
`nchar` (`WCHAR`) is 2 bytes.  This holds under every build flag
combination; `false false` is shown as the concrete instance, and the
width gap is shown for the `WIN32` case where the two types differ. -/
theorem separator_fields_not_native :
    field_ctype false false "file_separator" = some CType.charPtr ∧
    field_ctype false false "path_separator" = some CType.charPtr ∧
    field_ctype false false "line_separator" = some CType.charPtr ∧
    ¬ (field_ctype false false "file_separator" = some CType.ncharPtr ∧
       field_ctype false false "path_separator" = some CType.ncharPtr ∧
       field_ctype false false "line_separator" = some CType.ncharPtr) ∧
    ctype_width true CType.charPtr ≠ nchar_width true := by
  refine ⟨by decide, by decide, by decide, by decide, by decide⟩

/-- Claim C6 as amended: of the filesystem/environment fields, exactly
the temporary-directory, user-working-directory, user-name and
user-home fields are declared with the native text type `nchar *`; the
file, path and line separator fields are declared plain `char *`, in
every build configuration. -/
theorem java_props_native_text_fields :
    ∀ abi macosx : Bool,
      field_ctype abi macosx "tmp_dir" = some CType.ncharPtr ∧
      field_ctype abi macosx "user_dir" = some CType.ncharPtr ∧
      field_ctype abi macosx "user_name" = some CType.ncharPtr ∧
      field_ctype abi macosx "user_home" = some CType.ncharPtr ∧
      field_ctype abi macosx "file_separator" = some CType.charPtr ∧
      field_ctype abi macosx "path_separator" = some CType.charPtr ∧
      field_ctype abi macosx "line_separator" = some CType.charPtr := by
  decide

/-- Claim C7: every field of the proxy block (a boolean-style enabled
flag plus host and port strings for each of HTTP, HTTPS, FTP and SOCKS,
and the hostname-exclusion list) is present with its declared type
exactly when the `MACOSX` flag is set, and absent from every other
build. -/
theorem proxy_block_iff_macosx :
    ∀ (abi macosx : Bool) (p : String × CType), p ∈ proxy_fields →
      (java_props_t_fields abi macosx).lookup p.1 =
        (if macosx then some p.2 else none) := by
  decide

/-- Witness for C7 at the first proxy field, in a `MACOSX` build and in
a build without the flag. -/
theorem proxy_block_iff_macosx_witness :
    (java_props_t_fields false true).lookup "httpProxyEnabled" =
        some CType.intType ∧
    (java_props_t_fields false false).lookup "httpProxyEnabled" = none :=
  ⟨proxy_block_iff_macosx false true ("httpProxyEnabled", CType.intType)
      (by decide),
   proxy_block_iff_macosx false false ("httpProxyEnabled", CType.intType)
      (by decide)⟩

/-- Claim C8: the record carries eight distinct locale fields — format
and display variants of each of language, script, country and variant —
in every build configuration. -/
theorem locale_fields_format_display :
    (∀ abi macosx : Bool,
      field_ctype abi macosx "format_language" = some CType.charPtr ∧
      field_ctype abi macosx "display_language" = some CType.charPtr ∧
      field_ctype abi macosx "format_script" = some CType.charPtr ∧
      field_ctype abi macosx "display_script" = some CType.charPtr ∧
      field_ctype abi macosx "format_country" = some CType.charPtr ∧
      field_ctype abi macosx "display_country" = some CType.charPtr ∧
      field_ctype abi macosx "format_variant" = some CType.charPtr ∧
      field_ctype abi macosx "display_variant" = some CType.charPtr) ∧
    (["format_language", "display_language", "format_script",
      "display_script", "format_country", "display_country",
      "format_variant", "display_variant"] : List String).Nodup := by
  refine ⟨by decide, by decide⟩

end JavaProps
